import Mathlib

/-!
# Location-Bound Messaging — verification of the core

Shallow embedding of the repository's core modules and proofs of the
spec claims about them.

Conventions of the embedding:

* JavaScript `number` values are split by role: coordinates, distances,
  radii and speeds (which flow through transcendental functions) are `ℝ`;
  timestamps, ages and durations (compared and divided by 1000 only) are `ℚ`.
* Byte strings (`Buffer` / `Uint8Array`) are `List ℕ`.
* External cryptographic primitives (Ed25519 signature verification,
  HMAC-SHA256, AES-GCM, base64) are parameters of the functions that call
  them, as the spec treats them: correct black boxes supplied by a library.
* Fallible code returns `Except`/`Option`; `throw` becomes `Except.error`.
* Reason strings are abstracted to the inductive `VReason`, keeping the
  numeric payload that the source interpolates into the string where the
  payload is meaningful.
-/

namespace LocBound

/-! ## Data model (location.ts types) -/

/-- One sample of `movementHistory` (source `LocationPoint`). -/
structure LocationPoint where
  lat : ℝ
  lon : ℝ
  timestamp : ℚ

/-- Cell tower context (source `CellTowerInfo`); inert in verification. -/
structure CellTowerInfo where
  mcc : String
  mnc : String
  lac : String
  cellId : String
  signalStrength : Option ℝ

/-- Source `LocationAttestation`.  All fields of the TypeScript interface are
kept; only `movementHistory`, the coordinates and `timestamp` influence the
pipeline (the signature is checked through an abstract verifier). -/
structure LocationAttestation where
  deviceId : String
  devicePublicKey : String
  latitude : ℝ
  longitude : ℝ
  accuracy : ℝ
  timestamp : ℚ
  altitude : Option ℝ
  heading : Option ℝ
  speed : Option ℝ
  wifiSSIDs : Option (List String)
  cellTowers : Option (List CellTowerInfo)
  movementHistory : Option (List LocationPoint)
  signature : String

/-- Rejection reason codes.  The source carries reasons as strings; this
abstracts each distinct string template to a constructor, retaining the
interpolated numbers where they are data (geofence distance, speed,
presence duration). -/
inductive VReason where
  | invalidSignature
  | staleAttestation
  | outsideTimeWindow
  | outsideGeofence (distance : ℝ) (maxRadius : ℝ)
  | implausibleMovement (speed : ℝ) (maxSpeed : ℝ)
  | insufficientPresence (durationSec : ℚ) (requiredSec : ℚ)
  | noMovementHistory

/-- Source `VerificationResult`. -/
structure VerificationResult where
  valid : Bool
  reason : Option VReason
  attestation : Option LocationAttestation
  distance : Option ℝ

/-! ## Haversine distance and geofence (location.ts lines 141–178) -/

/-- JavaScript `Math.atan2 y x`, on the reals. -/
noncomputable def atan2 (y x : ℝ) : ℝ :=
  if 0 < x then Real.arctan (y / x)
  else if x < 0 ∧ 0 ≤ y then Real.arctan (y / x) + Real.pi
  else if x < 0 ∧ y < 0 then Real.arctan (y / x) - Real.pi
  else if x = 0 ∧ 0 < y then Real.pi / 2
  else if x = 0 ∧ y < 0 then -(Real.pi / 2)
  else 0

/-- Source `calculateDistance`: great-circle distance in meters between two
GPS coordinates by the Haversine formula, Earth radius 6 371 000 m. -/
noncomputable def calculateDistance (lat1 lon1 lat2 lon2 : ℝ) : ℝ :=
  let R : ℝ := 6371000
  let phi1 := lat1 * Real.pi / 180
  let phi2 := lat2 * Real.pi / 180
  let dphi := (lat2 - lat1) * Real.pi / 180
  let dlam := (lon2 - lon1) * Real.pi / 180
  let a := Real.sin (dphi / 2) * Real.sin (dphi / 2) +
    Real.cos phi1 * Real.cos phi2 * Real.sin (dlam / 2) * Real.sin (dlam / 2)
  let c := 2 * atan2 (Real.sqrt a) (Real.sqrt (1 - a))
  R * c

/-- Result of `isWithinGeofence`. -/
structure GeofenceResult where
  within : Bool
  distance : ℝ

/-- Source `isWithinGeofence`: distance to target and the boundary-inclusive
radius test `distance <= radiusMeters`. -/
noncomputable def isWithinGeofence (currentLat currentLon targetLat targetLon
    radiusMeters : ℝ) : GeofenceResult :=
  let distance := calculateDistance currentLat currentLon targetLat targetLon
  ⟨decide (distance ≤ radiusMeters), distance⟩

/-! ## Time-window and freshness checks (location.ts lines 187–205) -/

/-- Source `isWithinTimeWindow`: `currentTimestamp >= windowStart &&
currentTimestamp <= windowEnd`. -/
def isWithinTimeWindow (currentTimestamp windowStart windowEnd : ℚ) : Bool :=
  decide (windowStart ≤ currentTimestamp) && decide (currentTimestamp ≤ windowEnd)

/-- Source `isAttestationFresh`.  The source reads `Date.now()` internally;
here the clock is the explicit first argument `now`.  Accepts when
`0 ≤ now − attestationTimestamp ≤ maxAgeSec * 1000` (milliseconds). -/
def isAttestationFresh (now attestationTimestamp maxAgeSec : ℚ) : Bool :=
  let ageMs := now - attestationTimestamp
  decide (0 ≤ ageMs) && decide (ageMs ≤ maxAgeSec * 1000)

/-! ## Movement plausibility (location.ts lines 215–254) -/

/-- Timestamp-ascending comparison used by both history sorts
(`[...].sort((a, b) => a.timestamp - b.timestamp)`). -/
def tsLE (a b : LocationPoint) : Prop := a.timestamp ≤ b.timestamp

instance : DecidableRel tsLE := fun a b =>
  inferInstanceAs (Decidable (a.timestamp ≤ b.timestamp))

/-- Stable sort of a movement history by timestamp. -/
def sortByTimestamp (history : List LocationPoint) : List LocationPoint :=
  List.insertionSort tsLE history

/-- Source `calculateSpeed`: meters per second between two samples, with the
guard `if (timeDelta <= 0) return 0` — zero or negative Δt yields speed 0
rather than a division by zero. -/
noncomputable def calculateSpeed (point1 point2 : LocationPoint) : ℝ :=
  let distance := calculateDistance point1.lat point1.lon point2.lat point2.lon
  let timeDelta : ℚ := (point2.timestamp - point1.timestamp) / 1000
  if timeDelta ≤ 0 then 0 else distance / (timeDelta : ℝ)

/-- Result of `checkMovementPlausibility`. -/
structure PlausibilityResult where
  ok : Bool
  reason : Option VReason
  maxSpeed : Option ℝ

/-- The `for (let i = 1; ...)` loop of `checkMovementPlausibility`: walk the
sorted history keeping the running maximum speed, failing at the first
transition faster than `maxSpeedMps`. -/
noncomputable def plausLoop (maxSpeedMps : ℝ) :
    LocationPoint → List LocationPoint → ℝ → PlausibilityResult
  | _, [], maxSpeed => ⟨true, none, some maxSpeed⟩
  | prev, p :: rest, maxSpeed =>
    let speed := calculateSpeed prev p
    let maxSpeed2 := max maxSpeed speed
    if maxSpeedMps < speed then
      ⟨false, some (.implausibleMovement speed maxSpeedMps), some maxSpeed2⟩
    else plausLoop maxSpeedMps p rest maxSpeed2

/-- Source `checkMovementPlausibility`: histories of fewer than two samples
are vacuously plausible; otherwise sort by timestamp and scan transitions. -/
noncomputable def checkMovementPlausibility (movementHistory : List LocationPoint)
    (maxSpeedMps : ℝ) : PlausibilityResult :=
  if movementHistory.length < 2 then ⟨true, none, none⟩
  else
    match sortByTimestamp movementHistory with
    | [] => ⟨true, none, some 0⟩
    | p :: rest => plausLoop maxSpeedMps p rest 0

/-! ## Continuous presence (location.ts lines 260–308) -/

/-- Result of `verifyContinuousPresence`. -/
structure PresenceResult where
  verified : Bool
  reason : Option VReason
  duration : Option ℚ

/-- The scan loop of `verifyContinuousPresence`, with the source's mutable
`windowStart` (sentinel −1 meaning unset) and `windowDuration` as explicit
state.  An in-geofence sample extends the current window; any sample outside
resets both. -/
def presenceLoop (inside : LocationPoint → Bool) :
    List LocationPoint → ℚ → ℚ → ℚ
  | [], _, windowDuration => windowDuration
  | p :: rest, windowStart, _ =>
    if inside p then
      let ws := if windowStart = -1 then p.timestamp else windowStart
      presenceLoop inside rest ws (p.timestamp - ws)
    else
      presenceLoop inside rest (-1) 0

/-- Source `verifyContinuousPresence`: empty history is rejected outright;
otherwise the history is sorted and scanned, and the final window duration
(milliseconds, divided by 1000) is compared against the required seconds. -/
noncomputable def verifyContinuousPresence (movementHistory : List LocationPoint)
    (targetLat targetLon radiusMeters : ℝ) (requiredDurationSec : ℚ) :
    PresenceResult :=
  match movementHistory with
  | [] => ⟨false, some .noMovementHistory, none⟩
  | _ :: _ =>
    let sorted := sortByTimestamp movementHistory
    let windowDuration := presenceLoop
      (fun p => (isWithinGeofence p.lat p.lon targetLat targetLon radiusMeters).within)
      sorted (-1) 0
    let durationSec := windowDuration / 1000
    if requiredDurationSec ≤ durationSec then ⟨true, none, some durationSec⟩
    else ⟨false, some (.insufficientPresence durationSec requiredDurationSec),
      some durationSec⟩

/-! ## Full pipeline (location.ts lines 314–421) -/

/-- Source `VerificationConfig`.  Optional fields are `Option`; the source
reads them with `??` defaults (`maxAttestationAgeSec ?? 300`,
`continuousPresenceDurationSec ?? 30`, `maxSpeedMps ?? 200`), and
`requireContinuousPresence` by JavaScript truthiness (absent = false). -/
structure VerificationConfig where
  targetLat : ℝ
  targetLon : ℝ
  radiusMeters : ℝ
  windowStart : ℚ
  windowEnd : ℚ
  maxAttestationAgeSec : Option ℚ
  requireContinuousPresence : Option Bool
  continuousPresenceDurationSec : Option ℚ
  maxSpeedMps : Option ℝ

/-- Source `verifyLocationAttestation`: the six checks in their fixed order,
short-circuiting at the first failure.  The cryptographic signature check
(`verifyAttestationSignature`, which canonicalizes and calls Ed25519) is the
abstract parameter `sigVerify`; `now` is the clock read by the freshness
check.  Step 5 runs only when `movementHistory` is present with at least two
samples; step 6 runs when configured and `movementHistory` is present — in
the source `config.requireContinuousPresence && attestation.movementHistory`,
where an *empty array is truthy*, so a present-but-empty history reaches
`verifyContinuousPresence`. -/
noncomputable def verifyLocationAttestation
    (sigVerify : LocationAttestation → Bool) (now : ℚ)
    (attestation : LocationAttestation) (config : VerificationConfig) :
    VerificationResult :=
  if !(sigVerify attestation) then
    ⟨false, some .invalidSignature, none, none⟩
  else
    let maxAge := config.maxAttestationAgeSec.getD 300
    if !(isAttestationFresh now attestation.timestamp maxAge) then
      ⟨false, some .staleAttestation, some attestation, none⟩
    else if !(isWithinTimeWindow attestation.timestamp config.windowStart
        config.windowEnd) then
      ⟨false, some .outsideTimeWindow, some attestation, none⟩
    else
      let g := isWithinGeofence attestation.latitude attestation.longitude
        config.targetLat config.targetLon config.radiusMeters
      if !g.within then
        ⟨false, some (.outsideGeofence g.distance config.radiusMeters),
          some attestation, some g.distance⟩
      else
        let afterMovement : Option VerificationResult :=
          match attestation.movementHistory with
          | some history =>
            if 2 ≤ history.length then
              let maxSpeed := config.maxSpeedMps.getD 200
              let plausibility := checkMovementPlausibility history maxSpeed
              if !plausibility.ok then
                some ⟨false, plausibility.reason, some attestation, some g.distance⟩
              else none
            else none
          | none => none
        match afterMovement with
        | some r => r
        | none =>
          match config.requireContinuousPresence.getD false,
              attestation.movementHistory with
          | true, some history =>
            let durationSec := config.continuousPresenceDurationSec.getD 30
            let presence := verifyContinuousPresence history config.targetLat
              config.targetLon config.radiusMeters durationSec
            if !presence.verified then
              ⟨false, presence.reason, some attestation, some g.distance⟩
            else ⟨true, none, some attestation, some g.distance⟩
          | _, _ => ⟨true, none, some attestation, some g.distance⟩

/-! ## HKDF and location-bound key derivation (crypto.ts lines 99–182)

`hmac` stands for `createHmac('sha256', key).update(msg).digest()`: an
arbitrary function from key and message bytes to digest bytes.  Claims that
need the digest width assume `∀ k m, (hmac k m).length = 32`. -/

/-- Source `hkdfExtract`: `PRK = HMAC-SHA256(salt, ikm)`. -/
def hkdfExtract (hmac : List ℕ → List ℕ → List ℕ) (salt ikm : List ℕ) : List ℕ :=
  hmac salt ikm

/-- The RFC 5869 block sequence as the spec states it:
`T(0) = empty`, `T(i) = HMAC-SHA256(PRK, T(i−1) ‖ info ‖ byte(i))`. -/
def hkdfT (hmac : List ℕ → List ℕ → List ℕ) (prk info : List ℕ) : ℕ → List ℕ
  | 0 => []
  | i + 1 => hmac prk (hkdfT hmac prk info i ++ info ++ [i + 1])

/-- The concatenation `T(1) ‖ … ‖ T(n)` of the first `n` blocks. -/
def hkdfBlocks (hmac : List ℕ → List ℕ → List ℕ) (prk info : List ℕ) :
    ℕ → List ℕ
  | 0 => []
  | n + 1 => hkdfBlocks hmac prk info n ++ hkdfT hmac prk info (n + 1)

/-- The `for (let i = 1; i <= n; i++)` loop of `hkdfExpand` as state-passing
recursion: after `i` iterations the state is the pair `(t, okm)` of the
source's mutable buffers. -/
def hkdfLoop (hmac : List ℕ → List ℕ → List ℕ) (prk info : List ℕ) :
    ℕ → List ℕ × List ℕ
  | 0 => ([], [])
  | i + 1 =>
    let s := hkdfLoop hmac prk info i
    let t := hmac prk (s.1 ++ info ++ [i + 1])
    (t, s.2 ++ t)

/-- Source `hkdfExpand`: `n = Math.ceil(length / 32)` blocks, error when
`n > 255`, otherwise the concatenated blocks truncated to `length` bytes
(`okm.slice(0, length)`). -/
def hkdfExpand (hmac : List ℕ → List ℕ → List ℕ) (prk info : List ℕ)
    (length : ℕ) : Except String (List ℕ) :=
  let hashLen := 32
  let n := (length + hashLen - 1) / hashLen
  if 255 < n then Except.error "HKDF output length too large"
  else Except.ok ((hkdfLoop hmac prk info n).2.take length)

/-- Source `hkdf` (RFC 5869 extract-then-expand), on bytes. -/
def hkdf (hmac : List ℕ → List ℕ → List ℕ) (ikm salt info : List ℕ)
    (length : ℕ) : Except String (List ℕ) :=
  hkdfExpand hmac (hkdfExtract hmac salt ikm) info length

/-- Source `LocationBinding` as carried by a stored message: coordinates,
radius, time window and the per-message key-derivation nonce. -/
structure LocationBinding where
  latitude : ℝ
  longitude : ℝ
  radiusMeters : ℝ
  windowStart : ℚ
  windowEnd : ℚ
  nonce : List ℕ

/-- UTF-8 bytes of the fixed, versioned domain-separation salt
`'LocationBoundMessaging-v1'`. -/
def fixedSalt : List ℕ :=
  "LocationBoundMessaging-v1".toUTF8.toList.map (fun b => b.toNat)

/-- Source `deriveLocationBoundKey`: HKDF of the shared secret under the
fixed salt, with the canonical serialization of the binding as context info,
requesting 32 bytes.  The source serializes with `JSON.stringify` over
`toFixed(6)` coordinate strings; decimal float formatting is not embeddable,
so the canonical encoding is the abstract parameter `serializeBinding` —
a fixed function of the binding, as in the source. -/
def deriveLocationBoundKey (hmac : List ℕ → List ℕ → List ℕ)
    (serializeBinding : LocationBinding → List ℕ)
    (sharedSecret : List ℕ) (binding : LocationBinding) :
    Except String (List ℕ) :=
  hkdf hmac sharedSecret fixedSalt (serializeBinding binding) 32

/-! ## Sealing and unsealing (crypto.ts lines 194–273, ComposeMessage /
MessageViewer flows)

AES-GCM is the abstract pair `enc`/`dec`: `enc key nonce plaintext =
(ciphertext, authTag)` and `dec key nonce ciphertext tag` returning `none` on
authentication failure.  The source draws the nonce inside `aesGcmEncrypt`
from a CSPRNG; here nonces are explicit arguments.  Base64 of the wrapped key
(`util.encodeBase64` / `decodeBase64`) is the abstract pair `b64e`/`b64d`. -/

/-- Fields of a stored message relevant to sealing (source `StoredMessage`
ciphertext, nonces, tags and wrapped key). -/
structure SealedMessage where
  encryptedPayload : List ℕ
  payloadNonce : List ℕ
  payloadAuthTag : List ℕ
  wrappedKey : List ℕ
  wrappedKeyNonce : List ℕ
  wrappedKeyAuthTag : List ℕ

/-- Source `wrapKey`: base64-encode the key, AES-GCM-encrypt it under the
wrapping key.  Returns (wrappedKey, nonce, authTag). -/
def wrapKey (enc : List ℕ → List ℕ → List ℕ → List ℕ × List ℕ)
    (b64e : List ℕ → List ℕ)
    (keyToWrap wrappingKey nonce : List ℕ) : List ℕ × List ℕ × List ℕ :=
  let c := enc wrappingKey nonce (b64e keyToWrap)
  (c.1, nonce, c.2)

/-- Source `unwrapKey`: AES-GCM-decrypt then base64-decode. -/
def unwrapKey (dec : List ℕ → List ℕ → List ℕ → List ℕ → Option (List ℕ))
    (b64d : List ℕ → List ℕ)
    (wrappedKey wrappingKey nonce authTag : List ℕ) : Option (List ℕ) :=
  (dec wrappingKey nonce wrappedKey authTag).map b64d

/-- The sender flow (ComposeMessage): encrypt the plaintext under a fresh
content key, then wrap the content key under the location-bound key. -/
def sealMessage (enc : List ℕ → List ℕ → List ℕ → List ℕ × List ℕ)
    (b64e : List ℕ → List ℕ)
    (plaintext contentKey locationBoundKey payloadNonce wrapNonce : List ℕ) :
    SealedMessage :=
  let p := enc contentKey payloadNonce plaintext
  let w := wrapKey enc b64e contentKey locationBoundKey wrapNonce
  ⟨p.1, payloadNonce, p.2, w.1, w.2.1, w.2.2⟩

/-- The recipient flow (MessageViewer): unwrap the content key with the
re-derived location-bound key, then decrypt the payload; any failure is
total. -/
def unsealMessage (dec : List ℕ → List ℕ → List ℕ → List ℕ → Option (List ℕ))
    (b64d : List ℕ → List ℕ)
    (locationBoundKey : List ℕ) (m : SealedMessage) : Option (List ℕ) :=
  match unwrapKey dec b64d m.wrappedKey locationBoundKey m.wrappedKeyNonce
      m.wrappedKeyAuthTag with
  | none => none
  | some contentKey =>
    dec contentKey m.payloadNonce m.encryptedPayload m.payloadAuthTag

/-! ## Spec-side measures for the continuous-presence check

These definitions state, in closed form, which window the scan loop of
`verifyContinuousPresence` actually measures: the contiguous run of
in-geofence samples at the *end* of the sorted history.  They are used to
characterize the loop, and to contrast it with the spec's longest-run
reading. -/

/-- The maximal suffix of `l` whose samples all satisfy `inside`: the
contiguous in-geofence run containing the final sample, empty when the final
sample is outside. -/
def lastInsideRun (inside : LocationPoint → Bool) (l : List LocationPoint) :
    List LocationPoint :=
  (l.reverse.takeWhile inside).reverse

/-- Timestamp of the last sample of a history (0 for an empty one). -/
def lastTimestamp : List LocationPoint → ℚ
  | [] => 0
  | [p] => p.timestamp
  | _ :: rest => lastTimestamp rest

/-- Span in milliseconds from the first to the last sample of a run. -/
def runSpan : List LocationPoint → ℚ
  | [] => 0
  | p :: rest => lastTimestamp (p :: rest) - p.timestamp

/-! ## Concrete fixtures used by witnesses and counterexamples -/

/-- A movement sample at the origin, t = 1000 ms. -/
noncomputable def pSame1 : LocationPoint := ⟨0, 0, 1000⟩

/-- A movement sample far from the origin carrying the *same* timestamp. -/
noncomputable def pSame2 : LocationPoint := ⟨50, 50, 1000⟩

/-- In-geofence sample at the origin, t = 0. -/
noncomputable def pIn1 : LocationPoint := ⟨0, 0, 0⟩

/-- In-geofence sample at the origin, t = 60 000 ms. -/
noncomputable def pIn2 : LocationPoint := ⟨0, 0, 60000⟩

/-- Out-of-geofence sample (latitude 1/2°), t = 61 000 ms. -/
noncomputable def pOut : LocationPoint := ⟨1/2, 0, 61000⟩

/-- Base attestation fixture at the origin, timestamp 1000 ms, no optional
context. -/
noncomputable def attBase : LocationAttestation :=
  ⟨"device-1", "device-pubkey", 0, 0, 5, 1000,
    none, none, none, none, none, none, "sig"⟩

/-- `attBase` carrying the two distinct samples with identical timestamps. -/
noncomputable def attTeleport : LocationAttestation :=
  { attBase with movementHistory := some [pSame1, pSame2] }

/-- `attBase` carrying a present-but-empty movement history. -/
noncomputable def attEmptyHist : LocationAttestation :=
  { attBase with movementHistory := some [] }

/-- `attBase` moved to latitude 1/2°: strictly outside a radius-0 geofence
at the origin. -/
noncomputable def attFar : LocationAttestation :=
  { attBase with latitude := 1/2 }

/-- Base verification config: target at the origin, radius 100 m, window
[0, 10⁶] ms, all optional fields absent. -/
noncomputable def cfgBase : VerificationConfig :=
  ⟨0, 0, 100, 0, 1000000, none, none, none, none⟩

/-- `cfgBase` requiring continuous presence. -/
noncomputable def cfgPresence : VerificationConfig :=
  { cfgBase with requireContinuousPresence := some true }

/-- `cfgBase` with a radius-0 geofence. -/
noncomputable def cfgZeroRadius : VerificationConfig :=
  { cfgBase with radiusMeters := 0 }

/-- `cfgBase` with a negative speed ceiling (every transition, even speed 0,
is implausible) and continuous presence required: any history then fails
stage 5 and — being rejected there — never reaches stage 6. -/
noncomputable def cfgNegSpeed : VerificationConfig :=
  { cfgBase with
    maxSpeedMps := some (-1)
    requireContinuousPresence := some true }

/-! ## Lemmas: geometry -/

/-- The Haversine distance from a point to itself is zero. -/
theorem calculateDistance_self (lat lon : ℝ) :
    calculateDistance lat lon lat lon = 0 := by
  unfold calculateDistance atan2
  simp

/-- The Haversine distance from latitude 1/2°, longitude 0° to the origin is
strictly positive: 1/2° of latitude is a genuine displacement. -/
theorem calculateDistance_halfdeg_pos :
    0 < calculateDistance (1/2) 0 0 0 := by
  unfold calculateDistance
  dsimp only
  have hpi : (0:ℝ) < Real.pi := Real.pi_pos
  have harg : ((0:ℝ) - 1/2) * Real.pi / 180 / 2 = -(Real.pi / 720) := by ring
  rw [harg]
  set s : ℝ := Real.sin (Real.pi / 720) with hs
  have hs_pos : 0 < s := by
    apply Real.sin_pos_of_pos_of_lt_pi
    · positivity
    · calc Real.pi / 720 < Real.pi / 1 := by
            apply div_lt_div_of_pos_left hpi one_pos
            norm_num
        _ = Real.pi := by ring
  have hs_lt : s < 1 := by
    have h1 : s < Real.pi / 720 := Real.sin_lt (by positivity)
    have h2 : Real.pi / 720 < 1 := by
      have := Real.pi_le_four
      linarith
    linarith
  have hsin_neg : Real.sin (-(Real.pi / 720)) = -s := by
    rw [Real.sin_neg]
  rw [hsin_neg]
  have ha : -s * -s + Real.cos (1 / 2 * Real.pi / 180) * Real.cos (0 * Real.pi / 180) *
      Real.sin ((0 - 0) * Real.pi / 180 / 2) * Real.sin ((0 - 0) * Real.pi / 180 / 2)
      = s * s := by
    simp
  rw [ha]
  have ha_pos : 0 < s * s := mul_pos hs_pos hs_pos
  have ha_lt : s * s < 1 := by nlinarith
  have hx_pos : 0 < Real.sqrt (1 - s * s) := Real.sqrt_pos.mpr (by linarith)
  have hy_pos : 0 < Real.sqrt (s * s) := Real.sqrt_pos.mpr ha_pos
  have hatan : 0 < atan2 (Real.sqrt (s * s)) (Real.sqrt (1 - s * s)) := by
    unfold atan2
    rw [if_pos hx_pos]
    have : Real.arctan 0 < Real.arctan (Real.sqrt (s * s) / Real.sqrt (1 - s * s)) :=
      Real.arctan_strictMono (by positivity)
    simpa [Real.arctan_zero] using this
  positivity

/-- With a zero-or-negative timestamp difference the source's guard fires
and the computed speed is 0, whatever the distance between the samples. -/
theorem calculateSpeed_of_nonpos_dt (p q : LocationPoint)
    (h : q.timestamp ≤ p.timestamp) : calculateSpeed p q = 0 := by
  unfold calculateSpeed
  rw [if_pos]
  exact div_nonpos_iff.mpr (Or.inr ⟨by linarith, by norm_num⟩)

/-! ## Lemmas: HKDF -/

/-- After `i` iterations, the loop state is `(T(i), T(1) ‖ … ‖ T(i))`. -/
theorem hkdfLoop_eq (hmac : List ℕ → List ℕ → List ℕ) (prk info : List ℕ) :
    ∀ n, hkdfLoop hmac prk info n =
      (hkdfT hmac prk info n, hkdfBlocks hmac prk info n) := by
  intro n
  induction n with
  | zero => rfl
  | succ i ih => simp [hkdfLoop, hkdfT, hkdfBlocks, ih]

/-- Each block is 32 bytes wide, so `n` blocks concatenate to `32 n` bytes. -/
theorem hkdfBlocks_length (hmac : List ℕ → List ℕ → List ℕ)
    (h32 : ∀ k m, (hmac k m).length = 32) (prk info : List ℕ) :
    ∀ n, (hkdfBlocks hmac prk info n).length = 32 * n := by
  intro n
  induction n with
  | zero => rfl
  | succ i ih =>
    simp [hkdfBlocks, hkdfT, ih, h32]
    ring

/-- `hkdfExpand` fails exactly on requests beyond 255 blocks. -/
theorem hkdfExpand_error_of_gt (hmac : List ℕ → List ℕ → List ℕ)
    (prk info : List ℕ) (len : ℕ) (h : 255 * 32 < len) :
    hkdfExpand hmac prk info len = Except.error "HKDF output length too large" := by
  unfold hkdfExpand
  rw [if_pos (by omega)]

/-- Within bounds, `hkdfExpand` returns the truncated block concatenation. -/
theorem hkdfExpand_ok_of_le (hmac : List ℕ → List ℕ → List ℕ)
    (prk info : List ℕ) (len : ℕ) (h : len ≤ 255 * 32) :
    hkdfExpand hmac prk info len =
      Except.ok ((hkdfBlocks hmac prk info ((len + 31) / 32)).take len) := by
  unfold hkdfExpand
  rw [if_neg (by omega), hkdfLoop_eq]
  have h31 : len + 32 - 1 = len + 31 := by omega
  rw [h31]

/-- Any successful expansion has exactly the requested length. -/
theorem hkdfExpand_ok_length (hmac : List ℕ → List ℕ → List ℕ)
    (h32 : ∀ k m, (hmac k m).length = 32) (prk info : List ℕ) (len : ℕ)
    (okm : List ℕ) (hok : hkdfExpand hmac prk info len = Except.ok okm) :
    okm.length = len := by
  unfold hkdfExpand at hok
  by_cases hn : 255 < (len + 32 - 1) / 32
  · rw [if_pos hn] at hok
    exact absurd hok (by simp)
  · rw [if_neg hn] at hok
    have h1 : okm = (hkdfLoop hmac prk info ((len + 32 - 1) / 32)).2.take len := by
      exact (Except.ok.injEq _ _).mp hok.symm
    rw [h1, hkdfLoop_eq, List.length_take, hkdfBlocks_length hmac h32]
    omega

/-! ## Claim C9: HKDF-Expand structure and failure bound -/

/-- C9.  HKDF-Expand iterates `T(i) = HMAC-SHA256(PRK, T(i−1) ‖ info ‖
byte(i))` from empty `T(0)`, concatenates the blocks and truncates to exactly
the requested byte count; it errors exactly when the request exceeds
255 × 32 bytes. -/
theorem hkdfExpand_spec (hmac : List ℕ → List ℕ → List ℕ)
    (h32 : ∀ k m, (hmac k m).length = 32) (prk info : List ℕ) (len : ℕ) :
    (255 * 32 < len → hkdfExpand hmac prk info len =
      Except.error "HKDF output length too large") ∧
    (len ≤ 255 * 32 → hkdfExpand hmac prk info len =
      Except.ok ((hkdfBlocks hmac prk info ((len + 31) / 32)).take len)) ∧
    (∀ okm, hkdfExpand hmac prk info len = Except.ok okm → okm.length = len) :=
  ⟨hkdfExpand_error_of_gt hmac prk info len,
   hkdfExpand_ok_of_le hmac prk info len,
   fun okm => hkdfExpand_ok_length hmac h32 prk info len okm⟩

/-- C9 witness: a concrete 32-byte-wide digest function, a 40-byte request. -/
theorem hkdfExpand_spec_witness :
    (∀ k m : List ℕ, ((fun _ _ : List ℕ => List.replicate 32 (0:ℕ)) k m).length = 32) ∧
    (40 ≤ 255 * 32) ∧
    hkdfExpand (fun _ _ : List ℕ => List.replicate 32 (0:ℕ)) [] [] 40 =
      Except.ok ((hkdfBlocks (fun _ _ : List ℕ => List.replicate 32 (0:ℕ)) [] []
        ((40 + 31) / 32)).take 40) :=
  ⟨fun _ _ => by simp, by norm_num,
   (hkdfExpand_spec (fun _ _ => List.replicate 32 0) (fun _ _ => by simp)
     [] [] 40).2.1 (by norm_num)⟩

/-! ## Claim C7: deterministic 32-byte location-bound key -/

/-- C7.  Location-bound key derivation is a pure function of the shared
secret and the binding: two invocations on identical inputs are literally the
same computation, and (for a 32-byte digest) it always succeeds with a
32-byte key. -/
theorem deriveLocationBoundKey_deterministic (hmac : List ℕ → List ℕ → List ℕ)
    (serializeBinding : LocationBinding → List ℕ)
    (h32 : ∀ k m, (hmac k m).length = 32)
    (sharedSecret : List ℕ) (binding : LocationBinding) :
    deriveLocationBoundKey hmac serializeBinding sharedSecret binding =
      deriveLocationBoundKey hmac serializeBinding sharedSecret binding ∧
    ∃ key, deriveLocationBoundKey hmac serializeBinding sharedSecret binding =
      Except.ok key ∧ key.length = 32 := by
  refine ⟨rfl, ?_⟩
  unfold deriveLocationBoundKey hkdf
  refine ⟨_, hkdfExpand_ok_of_le hmac _ _ 32 (by norm_num), ?_⟩
  exact hkdfExpand_ok_length hmac h32 _ _ 32 _
    (hkdfExpand_ok_of_le hmac _ _ 32 (by norm_num))

/-- C7 witness: the constant digest function and a concrete binding. -/
theorem deriveLocationBoundKey_deterministic_witness :
    (∀ k m : List ℕ, ((fun _ _ : List ℕ => List.replicate 32 (0:ℕ)) k m).length = 32) ∧
    (∃ key, deriveLocationBoundKey (fun _ _ : List ℕ => List.replicate 32 (0:ℕ))
      (fun _ => []) [] ⟨0, 0, 100, 0, 1000, []⟩ = Except.ok key ∧ key.length = 32) :=
  ⟨fun _ _ => by simp,
   (deriveLocationBoundKey_deterministic (fun _ _ => List.replicate 32 0)
     (fun _ => []) (fun _ _ => by simp) [] ⟨0, 0, 100, 0, 1000, []⟩).2⟩

/-! ## Claim C8: seal / unseal round-trip -/

/-- C8.  With a round-tripping AEAD and base64, sealing a plaintext under a
fresh content key with the key wrapped under the derived location-bound key,
then unsealing with a key derived from the same inputs, recovers the
plaintext exactly. -/
theorem seal_unseal_roundtrip
    (enc : List ℕ → List ℕ → List ℕ → List ℕ × List ℕ)
    (dec : List ℕ → List ℕ → List ℕ → List ℕ → Option (List ℕ))
    (b64e b64d : List ℕ → List ℕ)
    (haead : ∀ k n m, dec k n (enc k n m).1 (enc k n m).2 = some m)
    (h64 : ∀ x, b64d (b64e x) = x)
    (hmac : List ℕ → List ℕ → List ℕ)
    (serializeBinding : LocationBinding → List ℕ)
    (sharedSecret : List ℕ) (binding : LocationBinding) (K : List ℕ)
    (_hK : deriveLocationBoundKey hmac serializeBinding sharedSecret binding =
      Except.ok K)
    (plaintext contentKey payloadNonce wrapNonce : List ℕ) :
    unsealMessage dec b64d K
      (sealMessage enc b64e plaintext contentKey K payloadNonce wrapNonce) =
      some plaintext := by
  unfold unsealMessage sealMessage wrapKey unwrapKey
  simp [haead, h64]

/-- C8 witness: transparent AEAD and base64, constant digest, concrete
binding and plaintext. -/
theorem seal_unseal_roundtrip_witness :
    unsealMessage (fun _ _ c _ => some c) id (List.replicate 32 0)
      (sealMessage (fun _ _ m => (m, [])) id [7, 7] [1]
        (List.replicate 32 0) [2] [3]) = some [7, 7] :=
  seal_unseal_roundtrip (fun _ _ m => (m, [])) (fun _ _ c _ => some c) id id
    (fun _ _ _ => rfl) (fun _ => rfl)
    (fun _ _ => List.replicate 32 0) (fun _ => []) [] ⟨0, 0, 100, 0, 1000, []⟩
    (List.replicate 32 0) rfl [7, 7] [1] [2] [3]

/-! ## Claim C4: geofence boundary -/

/-- C4.  The geofence check measures the Haversine distance (Earth radius
6 371 000 m, embedded in `calculateDistance`) from the attestation to the
target, reports it, and accepts exactly when it is ≤ the radius; in
particular a point at exactly `radius` meters is accepted, and any point
strictly beyond is rejected (the iff, read right-to-left). -/
theorem geofence_boundary (lat1 lon1 lat2 lon2 r : ℝ) :
    ((isWithinGeofence lat1 lon1 lat2 lon2 r).within = true ↔
      calculateDistance lat1 lon1 lat2 lon2 ≤ r) ∧
    (isWithinGeofence lat1 lon1 lat2 lon2 r).distance =
      calculateDistance lat1 lon1 lat2 lon2 ∧
    (isWithinGeofence lat1 lon1 lat2 lon2
      (calculateDistance lat1 lon1 lat2 lon2)).within = true := by
  refine ⟨?_, rfl, ?_⟩ <;> simp [isWithinGeofence]

/-! ## Claim C5: freshness window and its default -/

/-- C5.  The freshness check accepts exactly when
`0 ≤ now − timestamp ≤ maxAgeSec · 1000` milliseconds; attestations from the
future are rejected; and when `maxAttestationAgeSec` is not configured the
pipeline applies the 300 s (= 300 000 ms) default. -/
theorem freshness_window (now ts maxAgeSec : ℚ) :
    (isAttestationFresh now ts maxAgeSec = true ↔
      0 ≤ now - ts ∧ now - ts ≤ maxAgeSec * 1000) ∧
    (now - ts < 0 → isAttestationFresh now ts maxAgeSec = false) ∧
    (∀ (sigVerify : LocationAttestation → Bool) (att : LocationAttestation)
      (cfg : VerificationConfig), sigVerify att = true →
      cfg.maxAttestationAgeSec = none →
      isAttestationFresh now att.timestamp 300 = false →
      (verifyLocationAttestation sigVerify now att cfg).reason =
        some .staleAttestation) := by
  refine ⟨?_, ?_, ?_⟩
  · simp [isAttestationFresh]
  · intro h
    simp only [isAttestationFresh, Bool.and_eq_false_iff, decide_eq_false_iff_not,
      not_le]
    exact Or.inl h
  · intro sigVerify att cfg hsig hage hfresh
    unfold verifyLocationAttestation
    simp [hsig, hage, hfresh]

/-- C5 witness: an attestation 400 s old under an unconfigured max age is
rejected as stale. -/
theorem freshness_window_witness :
    ((fun _ : LocationAttestation => true) attBase = true) ∧
    cfgBase.maxAttestationAgeSec = none ∧
    isAttestationFresh 401000 attBase.timestamp 300 = false ∧
    (verifyLocationAttestation (fun _ => true) 401000 attBase cfgBase).reason =
      some .staleAttestation := by
  have hfresh : isAttestationFresh 401000 attBase.timestamp 300 = false := by
    simp [isAttestationFresh, attBase]
    norm_num
  exact ⟨rfl, rfl, hfresh,
    (freshness_window 401000 attBase.timestamp 300).2.2 (fun _ => true) attBase
      cfgBase rfl rfl hfresh⟩

/-! ## Claim C3: fixed check order with short-circuit -/

/-- C3.  The pipeline evaluates signature, freshness, time-window, geofence,
movement plausibility, continuous presence in that fixed order,
short-circuiting at the first failure: an invalid signature yields the
invalid-signature rejection whatever the coordinates (in particular outside
the geofence); each later check's rejection is reachable only with every
earlier check passing; a stage-5 plausibility failure is reported whatever
the continuous-presence check would say (the quantification over `cfg`
includes configs requiring presence over a history that would also fail it);
and the stage-6 rejection is reported only when stage 5 passed or was
skipped. -/
theorem pipeline_order (sigVerify : LocationAttestation → Bool) (now : ℚ)
    (att : LocationAttestation) (cfg : VerificationConfig) :
    (sigVerify att = false →
      verifyLocationAttestation sigVerify now att cfg =
        ⟨false, some .invalidSignature, none, none⟩) ∧
    (sigVerify att = true →
      isAttestationFresh now att.timestamp (cfg.maxAttestationAgeSec.getD 300) = false →
      verifyLocationAttestation sigVerify now att cfg =
        ⟨false, some .staleAttestation, some att, none⟩) ∧
    (sigVerify att = true →
      isAttestationFresh now att.timestamp (cfg.maxAttestationAgeSec.getD 300) = true →
      isWithinTimeWindow att.timestamp cfg.windowStart cfg.windowEnd = false →
      verifyLocationAttestation sigVerify now att cfg =
        ⟨false, some .outsideTimeWindow, some att, none⟩) ∧
    (sigVerify att = true →
      isAttestationFresh now att.timestamp (cfg.maxAttestationAgeSec.getD 300) = true →
      isWithinTimeWindow att.timestamp cfg.windowStart cfg.windowEnd = true →
      ¬(calculateDistance att.latitude att.longitude cfg.targetLat cfg.targetLon ≤
        cfg.radiusMeters) →
      verifyLocationAttestation sigVerify now att cfg =
        ⟨false, some (.outsideGeofence
            (calculateDistance att.latitude att.longitude cfg.targetLat cfg.targetLon)
            cfg.radiusMeters),
          some att,
          some (calculateDistance att.latitude att.longitude cfg.targetLat
            cfg.targetLon)⟩) ∧
    (∀ history, sigVerify att = true →
      isAttestationFresh now att.timestamp (cfg.maxAttestationAgeSec.getD 300) = true →
      isWithinTimeWindow att.timestamp cfg.windowStart cfg.windowEnd = true →
      calculateDistance att.latitude att.longitude cfg.targetLat cfg.targetLon ≤
        cfg.radiusMeters →
      att.movementHistory = some history →
      2 ≤ history.length →
      (checkMovementPlausibility history (cfg.maxSpeedMps.getD 200)).ok = false →
      verifyLocationAttestation sigVerify now att cfg =
        ⟨false, (checkMovementPlausibility history (cfg.maxSpeedMps.getD 200)).reason,
          some att,
          some (calculateDistance att.latitude att.longitude cfg.targetLat
            cfg.targetLon)⟩) ∧
    (∀ history, sigVerify att = true →
      isAttestationFresh now att.timestamp (cfg.maxAttestationAgeSec.getD 300) = true →
      isWithinTimeWindow att.timestamp cfg.windowStart cfg.windowEnd = true →
      calculateDistance att.latitude att.longitude cfg.targetLat cfg.targetLon ≤
        cfg.radiusMeters →
      att.movementHistory = some history →
      (checkMovementPlausibility history (cfg.maxSpeedMps.getD 200)).ok = true →
      cfg.requireContinuousPresence.getD false = true →
      (verifyContinuousPresence history cfg.targetLat cfg.targetLon
        cfg.radiusMeters (cfg.continuousPresenceDurationSec.getD 30)).verified =
        false →
      verifyLocationAttestation sigVerify now att cfg =
        ⟨false, (verifyContinuousPresence history cfg.targetLat cfg.targetLon
            cfg.radiusMeters (cfg.continuousPresenceDurationSec.getD 30)).reason,
          some att,
          some (calculateDistance att.latitude att.longitude cfg.targetLat
            cfg.targetLon)⟩) := by
  refine ⟨?_, ?_, ?_, ?_, ?_, ?_⟩
  · intro hsig
    unfold verifyLocationAttestation
    simp [hsig]
  · intro hsig hfresh
    unfold verifyLocationAttestation
    simp [hsig, hfresh]
  · intro hsig hfresh hwin
    unfold verifyLocationAttestation
    simp [hsig, hfresh, hwin]
  · intro hsig hfresh hwin hgeo
    unfold verifyLocationAttestation
    simp [hsig, hfresh, hwin, isWithinGeofence, hgeo]
  · intro history hsig hfresh hwin hgeo hmh hlen hplfail
    unfold verifyLocationAttestation
    simp [hsig, hfresh, hwin, isWithinGeofence, hgeo, hmh, hlen, hplfail]
  · intro history hsig hfresh hwin hgeo hmh hplok hreq hver
    unfold verifyLocationAttestation
    by_cases hlen : 2 ≤ history.length <;>
      simp [hsig, hfresh, hwin, isWithinGeofence, hgeo, hmh, hlen, hplok,
        hreq, hver]

/-- C3 witness, two concrete instances.  First, an attestation with a failing
signature placed strictly outside the geofence (target at the origin, radius
0, attestation at latitude 1/2°) is rejected as `invalidSignature`, not
`outsideGeofence`.  Second, under a config that both makes every transition
implausible (negative speed ceiling) and requires continuous presence — so
stages 5 and 6 would both fail — the result is the stage-5 rejection. -/
theorem pipeline_order_witness :
    (((fun _ : LocationAttestation => false) (attFar) = false) ∧
      ¬(calculateDistance attFar.latitude attFar.longitude
          cfgZeroRadius.targetLat cfgZeroRadius.targetLon ≤
          cfgZeroRadius.radiusMeters) ∧
      verifyLocationAttestation (fun _ => false) 1000 attFar cfgZeroRadius =
        ⟨false, some .invalidSignature, none, none⟩) ∧
    (attTeleport.movementHistory = some [pSame1, pSame2] ∧
      cfgNegSpeed.requireContinuousPresence = some true ∧
      (checkMovementPlausibility [pSame1, pSame2]
        (cfgNegSpeed.maxSpeedMps.getD 200)).ok = false ∧
      verifyLocationAttestation (fun _ => true) 1000 attTeleport cfgNegSpeed =
        ⟨false, (checkMovementPlausibility [pSame1, pSame2]
            (cfgNegSpeed.maxSpeedMps.getD 200)).reason,
          some attTeleport,
          some (calculateDistance attTeleport.latitude attTeleport.longitude
            cfgNegSpeed.targetLat cfgNegSpeed.targetLon)⟩) := by
  have hgeo1 : ¬(calculateDistance attFar.latitude attFar.longitude
      cfgZeroRadius.targetLat cfgZeroRadius.targetLon ≤
      cfgZeroRadius.radiusMeters) := by
    simp only [attFar, cfgZeroRadius, attBase, cfgBase, not_le]
    exact calculateDistance_halfdeg_pos
  have hsort : sortByTimestamp [pSame1, pSame2] = [pSame1, pSame2] := by
    norm_num [sortByTimestamp, List.insertionSort, List.orderedInsert, tsLE,
      pSame1, pSame2]
  have hspeed : calculateSpeed pSame1 pSame2 = 0 :=
    calculateSpeed_of_nonpos_dt pSame1 pSame2 (by norm_num [pSame1, pSame2])
  have hplfail : (checkMovementPlausibility [pSame1, pSame2]
      (cfgNegSpeed.maxSpeedMps.getD 200)).ok = false := by
    have hm : cfgNegSpeed.maxSpeedMps.getD 200 = -1 := by
      simp [cfgNegSpeed, cfgBase]
    rw [hm]
    simp only [checkMovementPlausibility, hsort]
    norm_num [plausLoop, hspeed]
  have hfresh : isAttestationFresh 1000 attTeleport.timestamp
      (cfgNegSpeed.maxAttestationAgeSec.getD 300) = true := by
    norm_num [isAttestationFresh, attTeleport, attBase, cfgNegSpeed, cfgBase]
  have hwin : isWithinTimeWindow attTeleport.timestamp cfgNegSpeed.windowStart
      cfgNegSpeed.windowEnd = true := by
    norm_num [isWithinTimeWindow, attTeleport, attBase, cfgNegSpeed, cfgBase]
  have hgeo2 : calculateDistance attTeleport.latitude attTeleport.longitude
      cfgNegSpeed.targetLat cfgNegSpeed.targetLon ≤ cfgNegSpeed.radiusMeters := by
    norm_num [attTeleport, attBase, cfgNegSpeed, cfgBase, calculateDistance_self]
  refine ⟨⟨rfl, hgeo1,
    (pipeline_order (fun _ => false) 1000 attFar cfgZeroRadius).1 rfl⟩,
    rfl, rfl, hplfail, ?_⟩
  exact (pipeline_order (fun _ => true) 1000 attTeleport cfgNegSpeed).2.2.2.2.1
    [pSame1, pSame2] rfl hfresh hwin hgeo2 rfl (by norm_num) hplfail

/-! ## Lemmas: shape of failing check results -/

/-- A failing plausibility scan always reports an impossible-speed reason. -/
theorem plausLoop_reason_of_false (m : ℝ) :
    ∀ (l : List LocationPoint) (prev : LocationPoint) (ms : ℝ),
      (plausLoop m prev l ms).ok = false →
      ∃ s, (plausLoop m prev l ms).reason = some (.implausibleMovement s m) := by
  intro l
  induction l with
  | nil =>
    intro prev ms h
    exact absurd h (by simp [plausLoop])
  | cons p rest ih =>
    intro prev ms h
    by_cases hs : m < calculateSpeed prev p
    · exact ⟨calculateSpeed prev p, by simp [plausLoop, hs]⟩
    · simp only [plausLoop] at h ⊢
      rw [if_neg hs] at h ⊢
      exact ih p _ h

/-- A failing `checkMovementPlausibility` reports an impossible-speed
reason. -/
theorem checkMovementPlausibility_reason_of_false (history : List LocationPoint)
    (m : ℝ) (h : (checkMovementPlausibility history m).ok = false) :
    ∃ s, (checkMovementPlausibility history m).reason =
      some (.implausibleMovement s m) := by
  unfold checkMovementPlausibility at h ⊢
  by_cases hlen : history.length < 2
  · rw [if_pos hlen] at h
    exact absurd h (by simp)
  · rw [if_neg hlen] at h ⊢
    revert h
    cases sortByTimestamp history with
    | nil => intro h; exact absurd h (by simp)
    | cons p rest => exact plausLoop_reason_of_false m rest p 0

/-- A failing `verifyContinuousPresence` reports either the missing-history
reason or an insufficient-presence reason. -/
theorem verifyContinuousPresence_reason_of_false (history : List LocationPoint)
    (tLat tLon r : ℝ) (d : ℚ)
    (h : (verifyContinuousPresence history tLat tLon r d).verified = false) :
    (verifyContinuousPresence history tLat tLon r d).reason =
      some .noMovementHistory ∨
    ∃ x, (verifyContinuousPresence history tLat tLon r d).reason =
      some (.insufficientPresence x d) := by
  cases history with
  | nil => exact Or.inl rfl
  | cons p rest =>
    simp only [verifyContinuousPresence] at h ⊢
    by_cases hc : d ≤ presenceLoop
        (fun q => (isWithinGeofence q.lat q.lon tLat tLon r).within)
        (sortByTimestamp (p :: rest)) (-1) 0 / 1000
    · rw [if_pos hc] at h
      exact absurd h (by simp)
    · rw [if_neg hc] at h ⊢
      exact Or.inr ⟨_, rfl⟩

/-! ## Claim C6: distance reporting per stage -/

/-- C6.  The result's distance field is absent exactly on the three
pre-geofence rejections (invalid signature, stale, outside time window);
whenever it is present it is the computed geofence distance — so every
geofence-or-later rejection (and every success) carries that distance. -/
theorem rejection_distance (sigVerify : LocationAttestation → Bool) (now : ℚ)
    (att : LocationAttestation) (cfg : VerificationConfig) :
    ((verifyLocationAttestation sigVerify now att cfg).distance = none ↔
      ((verifyLocationAttestation sigVerify now att cfg).reason =
          some .invalidSignature ∨
        (verifyLocationAttestation sigVerify now att cfg).reason =
          some .staleAttestation ∨
        (verifyLocationAttestation sigVerify now att cfg).reason =
          some .outsideTimeWindow)) ∧
    ((verifyLocationAttestation sigVerify now att cfg).distance = none ∨
      (verifyLocationAttestation sigVerify now att cfg).distance =
        some (calculateDistance att.latitude att.longitude cfg.targetLat
          cfg.targetLon)) := by
  unfold verifyLocationAttestation
  cases hsig : sigVerify att with
  | false => simp [hsig]
  | true =>
    cases hfresh : isAttestationFresh now att.timestamp
        (cfg.maxAttestationAgeSec.getD 300) with
    | false => simp [hsig, hfresh]
    | true =>
      cases hwin : isWithinTimeWindow att.timestamp cfg.windowStart
          cfg.windowEnd with
      | false => simp [hsig, hfresh, hwin]
      | true =>
        by_cases hd : calculateDistance att.latitude att.longitude
            cfg.targetLat cfg.targetLon ≤ cfg.radiusMeters
        case neg =>
          simp [hsig, hfresh, hwin, isWithinGeofence, hd]
        case pos =>
          cases hmh : att.movementHistory with
          | none =>
            cases hreq : cfg.requireContinuousPresence.getD false <;>
              simp [hsig, hfresh, hwin, isWithinGeofence, hd, hmh, hreq]
          | some history =>
            by_cases hlen : 2 ≤ history.length
            case neg =>
              cases hreq : cfg.requireContinuousPresence.getD false with
              | false => simp [hsig, hfresh, hwin, isWithinGeofence, hd, hmh, hlen, hreq]
              | true =>
                cases hver : (verifyContinuousPresence history cfg.targetLat
                    cfg.targetLon cfg.radiusMeters
                    (cfg.continuousPresenceDurationSec.getD 30)).verified with
                | true =>
                  simp [hsig, hfresh, hwin, isWithinGeofence, hd, hmh, hlen,
                    hreq, hver]
                | false =>
                  rcases verifyContinuousPresence_reason_of_false history
                      cfg.targetLat cfg.targetLon cfg.radiusMeters
                      (cfg.continuousPresenceDurationSec.getD 30) hver with
                    hr | ⟨x, hr⟩ <;>
                    simp [hsig, hfresh, hwin, isWithinGeofence, hd, hmh, hlen,
                      hreq, hver, hr]
            case pos =>
              cases hpl : (checkMovementPlausibility history
                  (cfg.maxSpeedMps.getD 200)).ok with
              | false =>
                obtain ⟨s, hr⟩ := checkMovementPlausibility_reason_of_false
                  history (cfg.maxSpeedMps.getD 200) hpl
                simp [hsig, hfresh, hwin, isWithinGeofence, hd, hmh, hlen,
                  hpl, hr]
              | true =>
                cases hreq : cfg.requireContinuousPresence.getD false with
                | false =>
                  simp [hsig, hfresh, hwin, isWithinGeofence, hd, hmh, hlen,
                    hpl, hreq]
                | true =>
                  cases hver : (verifyContinuousPresence history cfg.targetLat
                      cfg.targetLon cfg.radiusMeters
                      (cfg.continuousPresenceDurationSec.getD 30)).verified with
                  | true =>
                    simp [hsig, hfresh, hwin, isWithinGeofence, hd, hmh, hlen,
                      hpl, hreq, hver]
                  | false =>
                    rcases verifyContinuousPresence_reason_of_false history
                        cfg.targetLat cfg.targetLon cfg.radiusMeters
                        (cfg.continuousPresenceDurationSec.getD 30) hver with
                      hr | ⟨x, hr⟩ <;>
                      simp [hsig, hfresh, hwin, isWithinGeofence, hd, hmh,
                        hlen, hpl, hreq, hver, hr]

/-! ## Claim C10: absent versus empty movement history -/

/-- C10.  With continuous presence required and all earlier checks passing,
an attestation with *no* `movementHistory` skips the presence check and
verifies as valid, while one with a present-but-*empty* history (an empty
array is truthy in JavaScript) reaches `verifyContinuousPresence` and is
rejected with the no-movement-history reason. -/
theorem presence_absent_vs_empty (sigVerify : LocationAttestation → Bool)
    (now : ℚ) (att : LocationAttestation) (cfg : VerificationConfig)
    (hsig : sigVerify att = true)
    (hfresh : isAttestationFresh now att.timestamp
      (cfg.maxAttestationAgeSec.getD 300) = true)
    (hwin : isWithinTimeWindow att.timestamp cfg.windowStart cfg.windowEnd = true)
    (hgeo : calculateDistance att.latitude att.longitude cfg.targetLat
      cfg.targetLon ≤ cfg.radiusMeters)
    (hreq : cfg.requireContinuousPresence = some true) :
    (att.movementHistory = none →
      (verifyLocationAttestation sigVerify now att cfg).valid = true) ∧
    (att.movementHistory = some [] →
      verifyLocationAttestation sigVerify now att cfg =
        ⟨false, some .noMovementHistory, some att,
          some (calculateDistance att.latitude att.longitude cfg.targetLat
            cfg.targetLon)⟩) := by
  constructor
  · intro hmh
    unfold verifyLocationAttestation
    simp [hsig, hfresh, hwin, isWithinGeofence, hgeo, hmh, hreq]
  · intro hmh
    unfold verifyLocationAttestation
    simp [hsig, hfresh, hwin, isWithinGeofence, hgeo, hmh, hreq,
      verifyContinuousPresence]

/-- C10 witness: at the base fixture, absent history verifies valid while the
same attestation with an empty history is rejected for missing history. -/
theorem presence_absent_vs_empty_witness :
    attBase.movementHistory = none ∧
    attEmptyHist.movementHistory = some [] ∧
    cfgPresence.requireContinuousPresence = some true ∧
    (verifyLocationAttestation (fun _ => true) 1000 attBase cfgPresence).valid =
      true ∧
    verifyLocationAttestation (fun _ => true) 1000 attEmptyHist cfgPresence =
      ⟨false, some .noMovementHistory, some attEmptyHist,
        some (calculateDistance attEmptyHist.latitude attEmptyHist.longitude
          cfgPresence.targetLat cfgPresence.targetLon)⟩ := by
  have hfresh1 : isAttestationFresh 1000 attBase.timestamp
      (cfgPresence.maxAttestationAgeSec.getD 300) = true := by
    norm_num [isAttestationFresh, attBase, cfgPresence, cfgBase]
  have hwin1 : isWithinTimeWindow attBase.timestamp cfgPresence.windowStart
      cfgPresence.windowEnd = true := by
    norm_num [isWithinTimeWindow, attBase, cfgPresence, cfgBase]
  have hgeo1 : calculateDistance attBase.latitude attBase.longitude
      cfgPresence.targetLat cfgPresence.targetLon ≤ cfgPresence.radiusMeters := by
    norm_num [attBase, cfgPresence, cfgBase, calculateDistance_self]
  have hfresh2 : isAttestationFresh 1000 attEmptyHist.timestamp
      (cfgPresence.maxAttestationAgeSec.getD 300) = true := by
    norm_num [isAttestationFresh, attEmptyHist, attBase, cfgPresence, cfgBase]
  have hwin2 : isWithinTimeWindow attEmptyHist.timestamp cfgPresence.windowStart
      cfgPresence.windowEnd = true := by
    norm_num [isWithinTimeWindow, attEmptyHist, attBase, cfgPresence, cfgBase]
  have hgeo2 : calculateDistance attEmptyHist.latitude attEmptyHist.longitude
      cfgPresence.targetLat cfgPresence.targetLon ≤ cfgPresence.radiusMeters := by
    norm_num [attEmptyHist, attBase, cfgPresence, cfgBase, calculateDistance_self]
  refine ⟨rfl, rfl, rfl, ?_, ?_⟩
  · exact (presence_absent_vs_empty (fun _ => true) 1000 attBase cfgPresence
      rfl hfresh1 hwin1 hgeo1 rfl).1 rfl
  · exact (presence_absent_vs_empty (fun _ => true) 1000 attEmptyHist cfgPresence
      rfl hfresh2 hwin2 hgeo2 rfl).2 rfl

/-! ## Lemmas: zero / negative Δt in the speed calculation -/

/-- A scan over samples that all carry one timestamp never rejects: every
transition has Δt = 0, hence speed 0, which no nonnegative ceiling is below. -/
theorem plausLoop_plausible_of_same_ts (m : ℝ) (t : ℚ) (hm : 0 ≤ m) :
    ∀ (l : List LocationPoint) (prev : LocationPoint) (ms : ℝ),
      prev.timestamp = t → (∀ q ∈ l, q.timestamp = t) →
      (plausLoop m prev l ms).ok = true := by
  intro l
  induction l with
  | nil => intro prev ms _ _; simp [plausLoop]
  | cons p rest ih =>
    intro prev ms hprev hl
    have hp : p.timestamp = t := hl p (by simp)
    have hspeed : calculateSpeed prev p = 0 :=
      calculateSpeed_of_nonpos_dt prev p (by rw [hp, hprev])
    have hrest : ∀ q ∈ rest, q.timestamp = t := fun q hq => hl q (by simp [hq])
    simp only [plausLoop, hspeed]
    rw [if_neg (not_lt.mpr hm)]
    exact ih p _ hp hrest

/-! ## Claim C1 (counterexample): zero Δt between distinct samples is
accepted, not rejected -/

/-- C1 counterexample.  Two *distinct* samples with identical timestamps
(Δt = 0): the movement-plausibility check reports them plausible, and the
full pipeline accepts the attestation carrying them as valid — there is no
data-integrity rejection. -/
theorem zero_dt_accepted_cex :
    pSame1 ≠ pSame2 ∧
    pSame2.timestamp - pSame1.timestamp = 0 ∧
    (checkMovementPlausibility [pSame1, pSame2] 200).ok = true ∧
    (verifyLocationAttestation (fun _ => true) 1000 attTeleport cfgBase).valid =
      true := by
  have hsort : sortByTimestamp [pSame1, pSame2] = [pSame1, pSame2] := by
    norm_num [sortByTimestamp, List.insertionSort, List.orderedInsert, tsLE,
      pSame1, pSame2]
  have hspeed : calculateSpeed pSame1 pSame2 = 0 :=
    calculateSpeed_of_nonpos_dt pSame1 pSame2 (by norm_num [pSame1, pSame2])
  have hpl : (checkMovementPlausibility [pSame1, pSame2] 200).ok = true := by
    simp only [checkMovementPlausibility, hsort]
    norm_num [plausLoop, hspeed]
  refine ⟨?_, ?_, hpl, ?_⟩
  · intro h
    have : pSame1.lat = pSame2.lat := by rw [h]
    norm_num [pSame1, pSame2] at this
  · norm_num [pSame1, pSame2]
  · unfold verifyLocationAttestation
    norm_num [attTeleport, attBase, cfgBase, isAttestationFresh,
      isWithinTimeWindow, isWithinGeofence, calculateDistance_self, hpl]

/-! ## Claim C1 (amended): zero / negative Δt yields speed 0 and passes -/

/-- C1 amended.  For consecutive samples whose timestamp difference is zero
or negative the pipeline does *not* reject: `calculateSpeed` returns 0 for
such a pair (guarding the division), and a history whose samples all carry
one timestamp — every transition Δt = 0 — always passes
`checkMovementPlausibility` under any nonnegative speed ceiling. -/
theorem zero_dt_speed_zero_passes :
    (∀ p q : LocationPoint, q.timestamp ≤ p.timestamp →
      calculateSpeed p q = 0) ∧
    (∀ (hist : List LocationPoint) (m : ℝ) (t : ℚ), 0 ≤ m →
      (∀ p ∈ hist, p.timestamp = t) →
      (checkMovementPlausibility hist m).ok = true) := by
  refine ⟨calculateSpeed_of_nonpos_dt, ?_⟩
  intro hist m t hm hts
  unfold checkMovementPlausibility
  by_cases hlen : hist.length < 2
  · rw [if_pos hlen]
  · rw [if_neg hlen]
    have hmem : ∀ q ∈ sortByTimestamp hist, q.timestamp = t := fun q hq =>
      hts q ((List.perm_insertionSort tsLE hist).subset hq)
    revert hmem
    cases sortByTimestamp hist with
    | nil => intro _; rfl
    | cons p rest =>
      intro hmem
      exact plausLoop_plausible_of_same_ts m t hm rest p 0
        (hmem p (by simp)) (fun q hq => hmem q (by simp [hq]))

/-- C1 amended witness: the two one-timestamp fixture samples under the
default 200 m/s ceiling. -/
theorem zero_dt_speed_zero_passes_witness :
    pSame2.timestamp ≤ pSame1.timestamp ∧
    calculateSpeed pSame1 pSame2 = 0 ∧
    (0:ℝ) ≤ 200 ∧
    (∀ p ∈ [pSame1, pSame2], p.timestamp = 1000) ∧
    (checkMovementPlausibility [pSame1, pSame2] 200).ok = true := by
  have hts : ∀ p ∈ [pSame1, pSame2], p.timestamp = 1000 := by
    intro p hp
    rcases List.mem_pair.mp hp with h | h <;> subst h <;>
      norm_num [pSame1, pSame2]
  exact ⟨by norm_num [pSame1, pSame2],
    zero_dt_speed_zero_passes.1 pSame1 pSame2 (by norm_num [pSame1, pSame2]),
    by norm_num, hts,
    zero_dt_speed_zero_passes.2 [pSame1, pSame2] 200 1000 (by norm_num) hts⟩

/-! ## Lemmas: trailing-run characterization of the presence loop -/

/-- `takeWhile` never sees past a failing element in the left part. -/
theorem takeWhile_append_left {α : Type} (P : α → Bool) :
    ∀ (m s : List α), (∃ x ∈ m, P x = false) →
      (m ++ s).takeWhile P = m.takeWhile P := by
  intro m
  induction m with
  | nil =>
    intro s h
    rcases h with ⟨x, hx, _⟩
    cases hx
  | cons y m2 ih =>
    intro s h
    cases hy : P y with
    | false => simp [List.takeWhile_cons, hy]
    | true =>
      have h2 : ∃ x ∈ m2, P x = false := by
        rcases h with ⟨x, hx, hxf⟩
        rcases List.mem_cons.mp hx with rfl | hx2
        · rw [hy] at hxf
          cases hxf
        · exact ⟨x, hx2, hxf⟩
      simp [List.takeWhile_cons, hy, ih s h2]

/-- `takeWhile` passes through an all-satisfying left part. -/
theorem takeWhile_append_all {α : Type} (P : α → Bool) :
    ∀ (m s : List α), (∀ x ∈ m, P x = true) →
      (m ++ s).takeWhile P = m ++ s.takeWhile P := by
  intro m
  induction m with
  | nil => intro s _; rfl
  | cons y m2 ih =>
    intro s h
    have hy : P y = true := h y (by simp)
    have h2 : ∀ x ∈ m2, P x = true := fun x hx => h x (by simp [hx])
    simp [List.takeWhile_cons, hy, ih s h2]

/-- `takeWhile` is the identity on an all-satisfying list. -/
theorem takeWhile_eq_self_of_all {α : Type} (P : α → Bool) (m : List α)
    (h : ∀ x ∈ m, P x = true) : m.takeWhile P = m := by
  have := takeWhile_append_all P m [] h
  simpa using this

/-- One step of the presence scan, as an equation. -/
theorem presenceLoop_cons (inside : LocationPoint → Bool) (p : LocationPoint)
    (rest : List LocationPoint) (ws dur : ℚ) :
    presenceLoop inside (p :: rest) ws dur =
      if inside p then
        presenceLoop inside rest (if ws = -1 then p.timestamp else ws)
          (p.timestamp - (if ws = -1 then p.timestamp else ws))
      else presenceLoop inside rest (-1) 0 := rfl

/-- An all-inside run with a set window start accumulates the span from that
start to the last sample. -/
theorem presenceLoop_all_inside (inside : LocationPoint → Bool) :
    ∀ (l : List LocationPoint) (q : LocationPoint) (ws dur : ℚ),
      inside q = true → (∀ p ∈ l, inside p = true) → ws ≠ -1 →
      presenceLoop inside (q :: l) ws dur = lastTimestamp (q :: l) - ws := by
  intro l
  induction l with
  | nil =>
    intro q ws dur hq _ hws
    rw [presenceLoop_cons, if_pos hq, if_neg hws]
    rfl
  | cons p rest ih =>
    intro q ws dur hq hl hws
    have hp : inside p = true := hl p (by simp)
    have hrest : ∀ x ∈ rest, inside x = true := fun x hx => hl x (by simp [hx])
    rw [presenceLoop_cons, if_pos hq, if_neg hws,
      ih p ws _ hp hrest hws]
    rfl

/-- An all-inside run from the unset sentinel measures the span from its
first to its last sample (provided no genuine timestamp equals the
sentinel −1). -/
theorem presenceLoop_all_inside_sentinel (inside : LocationPoint → Bool)
    (l : List LocationPoint) (q : LocationPoint) (dur : ℚ)
    (hq : inside q = true) (hl : ∀ p ∈ l, inside p = true)
    (hqts : q.timestamp ≠ -1) :
    presenceLoop inside (q :: l) (-1) dur =
      lastTimestamp (q :: l) - q.timestamp := by
  cases l with
  | nil =>
    rw [presenceLoop_cons, if_pos hq, if_pos rfl]
    rfl
  | cons p rest =>
    have hp : inside p = true := hl p (by simp)
    have hrest : ∀ x ∈ rest, inside x = true := fun x hx => hl x (by simp [hx])
    rw [presenceLoop_cons, if_pos hq, if_pos rfl,
      presenceLoop_all_inside inside rest p q.timestamp _ hp hrest hqts]
    rfl

/-- When some sample is outside the geofence, the loop's final window is the
span of the trailing all-inside run, independent of the incoming state. -/
theorem presenceLoop_of_exists_outside (inside : LocationPoint → Bool) :
    ∀ (l : List LocationPoint) (ws dur : ℚ),
      (∃ x ∈ l, inside x = false) → (∀ p ∈ l, p.timestamp ≠ -1) →
      presenceLoop inside l ws dur = runSpan (lastInsideRun inside l) := by
  intro l
  induction l with
  | nil =>
    intro ws dur h _
    rcases h with ⟨x, hx, _⟩
    cases hx
  | cons p rest ih =>
    intro ws dur hex hts
    have hts2 : ∀ q ∈ rest, q.timestamp ≠ -1 := fun q hq => hts q (by simp [hq])
    cases hp : inside p with
    | true =>
      have hex2 : ∃ x ∈ rest, inside x = false := by
        rcases hex with ⟨x, hx, hxf⟩
        rcases List.mem_cons.mp hx with rfl | hx2
        · rw [hp] at hxf
          cases hxf
        · exact ⟨x, hx2, hxf⟩
      have hrun : lastInsideRun inside (p :: rest) = lastInsideRun inside rest := by
        unfold lastInsideRun
        rw [List.reverse_cons, takeWhile_append_left inside rest.reverse [p]
          (by rcases hex2 with ⟨x, hx, hxf⟩; exact ⟨x, List.mem_reverse.mpr hx, hxf⟩)]
      rw [presenceLoop_cons, if_pos hp, ih _ _ hex2 hts2, hrun]
    | false =>
      rw [presenceLoop_cons, if_neg (by simp [hp])]
      by_cases hex3 : ∃ x ∈ rest, inside x = false
      · have hrun : lastInsideRun inside (p :: rest) = lastInsideRun inside rest := by
          unfold lastInsideRun
          rw [List.reverse_cons, takeWhile_append_left inside rest.reverse [p]
            (by rcases hex3 with ⟨x, hx, hxf⟩; exact ⟨x, List.mem_reverse.mpr hx, hxf⟩)]
        rw [ih _ _ hex3 hts2, hrun]
      · have hall : ∀ x ∈ rest, inside x = true := by
          intro x hx
          cases hxv : inside x with
          | true => rfl
          | false => exact absurd ⟨x, hx, hxv⟩ hex3
        cases rest with
        | nil => simp [presenceLoop, lastInsideRun, List.takeWhile_cons, hp, runSpan]
        | cons q l2 =>
          have hq : inside q = true := hall q (by simp)
          have hl2 : ∀ x ∈ l2, inside x = true := fun x hx => hall x (by simp [hx])
          rw [presenceLoop_all_inside_sentinel inside l2 q 0 hq hl2
            (hts q (by simp))]
          have hrun : lastInsideRun inside (p :: q :: l2) = q :: l2 := by
            unfold lastInsideRun
            rw [List.reverse_cons,
              takeWhile_append_all inside (q :: l2).reverse [p]
                (fun x hx => hall x (List.mem_reverse.mp hx))]
            simp [List.takeWhile_cons, hp]
          rw [hrun]
          rfl

/-- The window the presence scan ends with is exactly the span of the
trailing all-inside run of the list. -/
theorem presenceLoop_eq_trailing (inside : LocationPoint → Bool)
    (l : List LocationPoint) (hl : l ≠ [])
    (hts : ∀ p ∈ l, p.timestamp ≠ -1) :
    presenceLoop inside l (-1) 0 = runSpan (lastInsideRun inside l) := by
  by_cases hex : ∃ x ∈ l, inside x = false
  · exact presenceLoop_of_exists_outside inside l (-1) 0 hex hts
  · have hall : ∀ x ∈ l, inside x = true := by
      intro x hx
      cases hxv : inside x with
      | true => rfl
      | false => exact absurd ⟨x, hx, hxv⟩ hex
    cases l with
    | nil => exact absurd rfl hl
    | cons q l2 =>
      rw [presenceLoop_all_inside_sentinel inside l2 q 0 (hall q (by simp))
        (fun x hx => hall x (by simp [hx])) (hts q (by simp))]
      have hrun : lastInsideRun inside (q :: l2) = q :: l2 := by
        unfold lastInsideRun
        rw [takeWhile_eq_self_of_all inside (q :: l2).reverse
          (fun x hx => hall x (List.mem_reverse.mp hx))]
        exact List.reverse_reverse _
      rw [hrun]
      rfl

/-! ## Claim C2 (counterexample): the check measures the trailing run, not
the longest -/

/-- C2 counterexample.  A history with a 60 s in-geofence run (samples at
t = 0 and t = 60 000, both at the target) followed by one sample outside
(latitude 1/2°, t = 61 000): with a 30 s requirement the claim's
longest-run reading accepts, but `verifyContinuousPresence` resets on the
excursion and rejects with a measured duration of 0. -/
theorem presence_longest_run_cex :
    (isWithinGeofence pIn1.lat pIn1.lon 0 0 0).within = true ∧
    (isWithinGeofence pIn2.lat pIn2.lon 0 0 0).within = true ∧
    (isWithinGeofence pOut.lat pOut.lon 0 0 0).within = false ∧
    pIn2.timestamp - pIn1.timestamp = 60000 ∧
    verifyContinuousPresence [pIn1, pIn2, pOut] 0 0 0 30 =
      ⟨false, some (.insufficientPresence 0 30), some 0⟩ := by
  have hin : (isWithinGeofence (0:ℝ) 0 0 0 0).within = true := by
    simp [isWithinGeofence, calculateDistance_self]
  have hout : (isWithinGeofence pOut.lat pOut.lon 0 0 0).within = false := by
    simp only [pOut, isWithinGeofence, decide_eq_false_iff_not, not_le]
    exact calculateDistance_halfdeg_pos
  have hsort : sortByTimestamp [pIn1, pIn2, pOut] = [pIn1, pIn2, pOut] := by
    norm_num [sortByTimestamp, List.insertionSort, List.orderedInsert, tsLE,
      pIn1, pIn2, pOut]
  refine ⟨by simpa [pIn1] using hin, by simpa [pIn2] using hin,
    hout, by norm_num [pIn1, pIn2], ?_⟩
  have hloop : presenceLoop
      (fun p => (isWithinGeofence p.lat p.lon 0 0 0).within)
      [pIn1, pIn2, pOut] (-1) 0 = 0 := by
    rw [presenceLoop_cons, if_pos (by simpa [pIn1] using hin), if_pos rfl,
      presenceLoop_cons, if_pos (by simpa [pIn2] using hin),
      if_neg (by norm_num [pIn1]), presenceLoop_cons,
      if_neg (by simp [hout])]
    rfl
  simp only [verifyContinuousPresence, hsort, hloop]
  norm_num

/-! ## Claim C2 (amended): the presence check accepts exactly on the
trailing run -/

/-- C2 amended.  For a nonempty history (none of whose timestamps equals the
loop's −1 sentinel), the continuous-presence check accepts exactly when the
*trailing* contiguous run of timestamp-sorted in-geofence samples — the run
containing the final sample, empty as soon as the final sample is outside —
spans at least the required duration.  An earlier sufficiently long run
followed by an excursion outside the geofence is not accepted. -/
theorem presence_trailing_run (hist : List LocationPoint)
    (targetLat targetLon radiusMeters : ℝ) (requiredDurationSec : ℚ)
    (hne : hist ≠ [])
    (hts : ∀ p ∈ hist, p.timestamp ≠ -1) :
    (verifyContinuousPresence hist targetLat targetLon radiusMeters
        requiredDurationSec).verified = true ↔
      requiredDurationSec ≤ runSpan (lastInsideRun
        (fun p => (isWithinGeofence p.lat p.lon targetLat targetLon
          radiusMeters).within)
        (sortByTimestamp hist)) / 1000 := by
  obtain ⟨p, rest, rfl⟩ := List.exists_cons_of_ne_nil hne
  have hts2 : ∀ q ∈ sortByTimestamp (p :: rest), q.timestamp ≠ -1 := fun q hq =>
    hts q ((List.perm_insertionSort tsLE _).subset hq)
  have hne2 : sortByTimestamp (p :: rest) ≠ [] := by
    intro h
    have hlen : (sortByTimestamp (p :: rest)).length = (p :: rest).length :=
      (List.perm_insertionSort tsLE (p :: rest)).length_eq
    rw [h] at hlen
    simp at hlen
  simp only [verifyContinuousPresence]
  rw [presenceLoop_eq_trailing _ _ hne2 hts2]
  by_cases hc : requiredDurationSec ≤ runSpan (lastInsideRun
      (fun p => (isWithinGeofence p.lat p.lon targetLat targetLon
        radiusMeters).within) (sortByTimestamp (p :: rest))) / 1000
  · rw [if_pos hc]
    simpa using hc
  · rw [if_neg hc]
    simpa using hc

/-- C2 amended witness: a two-sample all-inside history spanning 60 s meets a
30 s requirement, and the trailing run is the whole history. -/
theorem presence_trailing_run_witness :
    ([pIn1, pIn2] ≠ ([] : List LocationPoint)) ∧
    (∀ p ∈ [pIn1, pIn2], p.timestamp ≠ -1) ∧
    ((verifyContinuousPresence [pIn1, pIn2] 0 0 0 30).verified = true ↔
      (30:ℚ) ≤ runSpan (lastInsideRun
        (fun p => (isWithinGeofence p.lat p.lon 0 0 0).within)
        (sortByTimestamp [pIn1, pIn2])) / 1000) := by
  have hts : ∀ p ∈ [pIn1, pIn2], p.timestamp ≠ -1 := by
    intro p hp
    rcases List.mem_pair.mp hp with h | h <;> subst h <;>
      norm_num [pIn1, pIn2]
  exact ⟨by simp, hts,
    presence_trailing_run [pIn1, pIn2] 0 0 0 30 (by simp) hts⟩

end LocBound
